import Mathlib

/-!
# Verification of the orionrc motor-control stack

Shallow embedding of the two core source files of the repository:

* `hx35.py`  — the HX35 servo protocol codec and per-device proxy,
* `mctrl.py` — the motor-controller state machines (zoom and focus).

Python floats are modelled as `ℚ` (exact real-valued semantics), Python
ints as `ℤ`/`ℕ`.  Python `round` (banker's rounding, round-half-to-even)
is modelled exactly by `pyRound`.  Wire bytes are modelled as `ℤ`
(values 0–255 in normal operation).  Fallible Python code (raise) is
modelled with `Except`, stateful code by explicit state passing.
-/

deriving instance DecidableEq for Except

namespace OrionRc

/-- Python `round` on a rational: nearest integer, ties to even
(Python 3 banker's rounding). -/
def pyRound (q : ℚ) : ℤ :=
  let f := ⌊q⌋
  let r := q - (f : ℚ)
  if r < 1/2 then f
  else if 1/2 < r then f + 1
  else if f % 2 = 0 then f else f + 1

/-- The exception classes of `hx35.py` (`ServoTimeoutError`,
`ServoChecksumError`, `ServoArgumentError`, `ServoLogicalError`). -/
inductive PyClass where
  | timeoutError
  | checksumError
  | argumentError
  | logicalError
deriving DecidableEq, Repr

/-- One constructor per distinct `raise` classification in the source
(the servo-id / message payloads are kept only where a claim needs
them). -/
inductive ServoError where
  /-- `_check_packet`: `sum(packet) == 0` — "not responding". -/
  | timeoutNotResponding
  /-- `_read_packet`: fewer bytes than requested arrived. -/
  | timeoutShortRead (got : ℕ)
  /-- bad checksum: expected / got trailing byte. -/
  | checksumBad (expected got : ℤ)
  /-- `_read_packet`: invalid packet header (raised as `ServoLogicalError`). -/
  | badHeader (b0 b1 : ℤ)
  /-- `_read_packet`: invalid packet length (raised as `ServoLogicalError`). -/
  | badLength (got expected : ℤ)
  /-- `ServoArgumentError` raise sites. -/
  | argumentError
  /-- remaining `ServoLogicalError` raise sites (torque / mode / state). -/
  | logicalError
deriving DecidableEq, Repr

/-- The Python exception class each `ServoError` constructor is raised as. -/
def ServoError.pyClass : ServoError → PyClass
  | .timeoutNotResponding => .timeoutError
  | .timeoutShortRead _ => .timeoutError
  | .checksumBad _ _ => .checksumError
  | .badHeader _ _ => .logicalError
  | .badLength _ _ => .logicalError
  | .argumentError => .argumentError
  | .logicalError => .logicalError

/-- `HX35._checksum`: `s = ~sum(packet[2:]); return s % 256`.
Python `~x = -x-1` and `%` with a positive modulus is the Euclidean
(non-negative) remainder, which is what `Int.emod` computes. -/
def checksum (packet : List ℤ) : ℤ :=
  (-((packet.drop 2).sum + 1)) % 256

/-- `HX35._to_bytes`: `n % 256, n // 256` (little-endian split; Python
floor-division and non-negative remainder agree with `Int.ediv` /
`Int.emod` for the positive divisor 256). -/
def toBytes (n : ℤ) : List ℤ :=
  [n % 256, n / 256]

/-- `HX35._send_packet`: prepend the `0x55 0x55` header and append the
checksum; returns the full byte sequence written to the serial port. -/
def sendPacket (packet : List ℤ) : List ℤ :=
  let p := [0x55, 0x55] ++ packet
  p ++ [checksum p]

/-- `HX35._to_servo_range`: `round(angle * 1500 / 360)`. -/
def toServoRange (angle : ℚ) : ℤ :=
  pyRound (angle * 1500 / 360)

/-- `HX35._from_servo_range`: `angle * 360 / 1500`. -/
def fromServoRange (angle : ℤ) : ℚ :=
  (angle : ℚ) * 360 / 1500

/-- `HX35._signed_byte`. -/
def signedByte (val : ℤ) : ℤ :=
  if val < 128 then val else val - 256

/-- `HX35._signed_word`. -/
def signedWord (val : ℤ) : ℤ :=
  if val > 32767 then val - 65536 else val

/-- `HX35._read_packet` on an already-received byte buffer: the four
validation steps, in source order.  `received[0] != received[1] != 0x55`
is a Python chained comparison, i.e.
`received[0] != received[1] and received[1] != 0x55`. -/
def readPacket (numBytes : ℕ) (received : List ℤ) : Except ServoError (List ℤ) :=
  if received.length < numBytes + 6 then
    .error (.timeoutShortRead received.length)
  else if received.getD 0 0 ≠ received.getD 1 0 ∧ received.getD 1 0 ≠ 0x55 then
    .error (.badHeader (received.getD 0 0) (received.getD 1 0))
  else if received.getD 3 0 ≠ (numBytes : ℤ) + 3 then
    .error (.badLength (received.getD 3 0) ((numBytes : ℤ) + 3))
  else
    let cSum := checksum received.dropLast
    let lastB := (received.getLast?).getD 0
    if cSum ≠ lastB then
      .error (.checksumBad cSum lastB)
    else
      .ok ((received.drop 5).dropLast)

/-- The serial input buffer (`HX35._controller`'s receive side). -/
structure SerialPort where
  buf : List ℤ
deriving DecidableEq, Repr

/-- `HX35._read_packet` including its interaction with the serial
port: `HX35._controller.read(num_bytes + 6)` consumes up to
`num_bytes + 6` bytes from the input buffer.  No branch of
`_read_packet` flushes the buffer. -/
def readPacketPort (numBytes : ℕ) (port : SerialPort) :
    Except ServoError (List ℤ) × SerialPort :=
  let received := port.buf.take (numBytes + 6)
  (readPacket numBytes received, ⟨port.buf.drop (numBytes + 6)⟩)

/-- `HX35._check_packet` (a helper that no code in the repository
calls): the all-zero "not responding" test, then the checksum test,
which on failure flushes the input buffer (`flushInput`). -/
def checkPacket (packet : List ℤ) (port : SerialPort) :
    Option ServoError × SerialPort :=
  if packet.sum = 0 then
    (some .timeoutNotResponding, port)
  else
    let cSum := checksum packet.dropLast
    let lastB := (packet.getLast?).getD 0
    if cSum ≠ lastB then
      (some (.checksumBad cSum lastB), ⟨[]⟩)
    else
      (none, port)

/-! ## Device proxy state (`class HX35`, instance attributes)

Only the shadow fields the verified operations read or write are kept;
the remaining shadow fields (`_vin_limits`, `_temp_limit`,
`_motor_speed`, LED flags) are untouched by the operations below.
Angles in the shadow are in device units (`_to_servo_range`), as in the
source. -/

structure HXState where
  id : ℤ := 1
  commandedAngle : ℤ := 0
  waitingAngle : ℤ := 0
  waitingForMove : Bool := false
  angleOffset : ℤ := 0
  angleLimits : ℤ × ℤ := (0, 1500)
  motorMode : Bool := false
  torqueEnabled : Bool := false
deriving DecidableEq, Repr

/-- `HX35.enable_torque`: sends `[id, 4, 31, 0]`, sets the shadow flag. -/
def hxEnableTorque (h : HXState) : HXState × List ℤ :=
  ({ h with torqueEnabled := true }, sendPacket [h.id, 4, 31, 0])

/-- `HX35.disable_torque`: sends `[id, 4, 31, 1]`, clears the shadow flag. -/
def hxDisableTorque (h : HXState) : HXState × List ℤ :=
  ({ h with torqueEnabled := false }, sendPacket [h.id, 4, 31, 1])

/-- `HX35.motor_mode(speed)`: torque check, range check, two's-complement
encoding of a negative speed, then the packet; sets `_motor_mode`. -/
def hxMotorMode (h : HXState) (speed : ℤ) : Except ServoError (HXState × List ℤ) :=
  if ¬ h.torqueEnabled then .error .logicalError
  else if speed < -1000 ∨ speed > 1000 then .error .argumentError
  else
    let s2 := if speed < 0 then speed + 65536 else speed
    .ok ({ h with motorMode := true },
         sendPacket ([h.id, 7, 29, 1, 0] ++ toBytes s2))

/-- `HX35.servo_mode()`. -/
def hxServoMode (h : HXState) : HXState × List ℤ :=
  ({ h with motorMode := false }, sendPacket [h.id, 7, 29, 0, 0, 0, 0])

/-- `HX35.move(angle, time, relative, wait)`: mode/torque checks, the two
range validations on the `angle` argument, conversion to device units,
relative-offset resolution against `_commanded_angle` (after the
validations, as in the source), the zero-to-2 nudge, the packet, and the
shadow update.  Returns the updated proxy and the bytes written. -/
def hxMove (h : HXState) (angle : ℚ) (time : ℤ)
    (relative : Bool := false) (wait : Bool := false) :
    Except ServoError (HXState × List ℤ) :=
  if ¬ h.torqueEnabled then .error .logicalError
  else if h.motorMode then .error .logicalError
  else if angle < 0 ∨ angle > 360 then .error .argumentError
  else if angle < fromServoRange h.angleLimits.1 ∨
          angle > fromServoRange h.angleLimits.2 then .error .argumentError
  else
    let a0 := toServoRange angle
    let a1 := if relative then a0 + h.commandedAngle else a0
    let a2 := if a1 = 0 then 2 else a1
    let packet :=
      if wait then [h.id, 7, 7] ++ toBytes a2 ++ toBytes time
      else [h.id, 7, 1] ++ toBytes a2 ++ toBytes time
    if wait then
      .ok ({ h with waitingAngle := a2, waitingForMove := true }, sendPacket packet)
    else
      .ok ({ h with commandedAngle := a2 }, sendPacket packet)

/-- `HX35.set_angle_offset(offset, permanent)`: range check, conversion
to device units, the `256 + offset` re-encoding of a negative value,
the packet(s), and the shadow update (which stores the re-encoded,
unsigned value). -/
def hxSetAngleOffset (h : HXState) (offset : ℚ) (permanent : Bool := false) :
    Except ServoError (HXState × List (List ℤ)) :=
  if offset < -30 ∨ offset > 30 then .error .argumentError
  else
    let o1 := toServoRange offset
    let o2 := if o1 < 0 then 256 + o1 else o1
    let pkts := [sendPacket [h.id, 4, 17, o2]] ++
      (if permanent then [sendPacket [h.id, 3, 18]] else [])
    .ok ({ h with angleOffset := o2 }, pkts)

/-- `HX35.get_angle_offset(poll_hardware=False)`: the cached path,
`_from_servo_range(self._angle_offset)`. -/
def hxGetAngleOffsetCached (h : HXState) : ℚ :=
  fromServoRange h.angleOffset

/-! ## Motor controller (`mctrl.py`) -/

/-- The three values ever assigned to `MCTRL.zoom_motor_state` /
`MCTRL.focus_motor_state` (string tags in the source). -/
inductive MotorState where
  | uninitialized
  | ready
  | busy
deriving DecidableEq, Repr

/-- `class MCTRLSettings` with its constructor defaults. -/
structure MCTRLSettings where
  comPort : String := "COM1"
  zoomMotorId : ℤ := 1
  focusMotorId : ℤ := 2
  timerInterval : ℚ := 0.1
  focusStepSpeed : ℤ := 1000
  focusPosPrecision : ℚ := 0.3
  serialTimeout : ℚ := 0.2
  zoomMinAngle : ℚ := 0
  zoomMaxAngle : ℚ := 270
  zoomInToMaxTime : ℚ := 5
deriving DecidableEq, Repr

/-- The state of `class MCTRL`.  The first block are class attributes
with their class-level defaults.  The second block are attributes
created only by `initialize` (`zoom_motor`, `focus_motor`,
`focus_motor_last_known_angle`, `focus_temp`, `focus_volt`,
`focus_temp_volt_next_check`, `zoom_motor_busy_until_time`,
`train_set`); the two `Bound` flags record whether the `zoom_motor` /
`focus_motor` attributes exist — on a fresh class they do not, and
`shutdown`'s `del` statements consult exactly that. -/
structure MCtrl where
  zoomMotorState : MotorState := .uninitialized
  focusMotorState : MotorState := .uninitialized
  focusPosition : ℚ := 0
  focusTargetPosition : ℚ := 0
  trainState : ℕ := 0
  lastKnownTime : ℚ := 0
  focusMotorLastRunInitSpeed : ℚ := 0
  focusMotorLastRunTime : ℚ := 0
  focusMotorLastRunDirection : ℚ := 0
  s : MCTRLSettings := {}
  zoomMotorBound : Bool := false
  focusMotorBound : Bool := false
  zoomMotor : HXState := {}
  focusMotor : HXState := {}
  focusMotorLastKnownAngle : ℚ := 0
  focusTemp : ℤ := 0
  focusVolt : ℚ := 0
  focusTempVoltNextCheck : ℚ := 0
  zoomMotorBusyUntilTime : ℚ := 0
  trainSet : List (List ℚ) := []
deriving DecidableEq, Repr

/-- The hardware responses a tick may consume: `angleReads i` is the
result of the i-th `focus_motor.get_physical_angle()` call inside
`update_focus_position`, `temp` / `volt` the `get_temp()` / `get_vin()`
results. -/
structure FocusEnv where
  angleReads : ℕ → ℚ
  temp : ℤ := 0
  volt : ℚ := 0

/-- The signed wrap-around angular delta of `update_focus_position`
(`mctrl.py` lines 209–218), verbatim branch structure. -/
def circularDelta (lastKnownAngle newAngle : ℚ) : ℚ :=
  if newAngle > lastKnownAngle then
    if newAngle - lastKnownAngle ≤ 180 then newAngle - lastKnownAngle
    else (newAngle - lastKnownAngle) - 360
  else
    if lastKnownAngle - newAngle ≤ 180 then newAngle - lastKnownAngle
    else 360 - (lastKnownAngle - newAngle)

/-- The jitter-mitigation re-poll loop of `update_focus_position`
(`for ii in range(5)` with an agreement break); `reads 0` is the
initial `new_angle_test` read, `reads i` for `1 ≤ i ≤ 5` the loop
reads.  Returns the final `new_angle`. -/
def pollAngleGo (precision : ℚ) (reads : ℕ → ℚ) : ℕ → ℚ → ℕ → ℚ
  | 0, test, _ => test
  | fuel + 1, test, i =>
    let newA := reads i
    if |newA - test| ≤ precision then newA
    else if fuel = 0 then newA
    else pollAngleGo precision reads fuel newA (i + 1)

/-- The angle produced by the re-poll loop (at most 6 hardware reads). -/
def pollAngle (precision : ℚ) (reads : ℕ → ℚ) : ℚ :=
  pollAngleGo precision reads 5 (reads 0) 1

/-- Python `round(x, 3)` used by `train_add_row`. -/
def roundTo3 (q : ℚ) : ℚ :=
  (pyRound (q * 1000) : ℚ) / 1000

/-- `MCTRL.train_add_row`: appends a training row when recording is on
and the burst had a non-zero run time and direction. -/
def trainAddRow (m : MCtrl) (angleChange runTime direction initialSpeed : ℚ) :
    MCtrl :=
  if m.trainState = 0 then m
  else if runTime = 0 ∨ direction = 0 then m
  else
    { m with trainSet := m.trainSet ++
        [[roundTo3 angleChange, roundTo3 runTime, direction,
          roundTo3 initialSpeed, (m.focusTemp : ℚ), m.focusVolt,
          (m.s.focusStepSpeed : ℚ) / 1000]] }

/-- `MCTRL.update_focus_position(time_passed)`: re-poll the angle,
accumulate the circular delta into `focus_position`, and maintain the
training bookkeeping fields. -/
def updateFocusPosition (m : MCtrl) (timePassed : ℚ) (env : FocusEnv) : MCtrl :=
  let newAngle := pollAngle m.s.focusPosPrecision env.angleReads
  let angleChange := circularDelta m.focusMotorLastKnownAngle newAngle
  let m1 := { m with focusMotorLastKnownAngle := newAngle,
                     focusPosition := m.focusPosition + angleChange }
  let runTime := if m1.focusMotorLastRunTime = -1 then timePassed
                 else m1.focusMotorLastRunTime
  let m2 := { m1 with focusMotorLastRunTime := runTime }
  let m3 := trainAddRow m2 angleChange runTime
              m2.focusMotorLastRunDirection m2.focusMotorLastRunInitSpeed
  { m3 with focusMotorLastRunInitSpeed := angleChange / timePassed,
            focusMotorLastRunTime := 0,
            focusMotorLastRunDirection := 0 }

/-- `MCTRL.focus_estimate_steps_time(steps_to_make)`: the fixed-
coefficient linear timing model, floored at 0.001 s.
`copysign(1.0, x)` is -1 for negative x and +1 otherwise. -/
def focusEstimateStepsTime (m : MCtrl) (stepsToMake : ℚ) : ℚ :=
  let ispeed := (m.focusMotorLastRunInitSpeed *
                  (if stepsToMake < 0 then -1 else 1)) / 400
  let temp := ((m.focusTemp : ℚ) + 100) / 200
  let volt := m.focusVolt / 20
  let power := (m.s.focusStepSpeed : ℚ) / 1000
  let steps := |stepsToMake| / 40
  let runTime := (1.4064 + (3.4872 * steps) - (0.1769 * ispeed) -
                  (0.9400 * temp) - (0.9994 * volt) - (0.7981 * power)) / 10
  if runTime ≥ 0.001 then runTime else 0.001

/-- `MCTRL.focus_do_steps(steps_to_make)`: start the drive at the
configured speed signed by the move direction, estimate the burst
duration, and either leave the drive running across ticks (sentinel
run time -1) or stop it after the (model-bounded) sleep.  The
`time.sleep` calls have no modelled effect. -/
def focusDoSteps (m : MCtrl) (stepsToMake : ℚ) : Except ServoError MCtrl := do
  let spd : ℤ := if stepsToMake < 0 then -m.s.focusStepSpeed
                 else m.s.focusStepSpeed
  let (fm1, _) ← hxMotorMode m.focusMotor spd
  let stepsTime := focusEstimateStepsTime m stepsToMake
  let m1 := { m with focusMotor := fm1,
                     focusMotorLastRunDirection :=
                       if stepsToMake < 0 then -1 else 1 }
  if stepsTime > m1.s.timerInterval * 4 then
    .ok { m1 with focusMotorLastRunTime := -1 }
  else if stepsTime > (m1.s.timerInterval / 10) * 2 then do
    let (fm2, _) ← hxMotorMode m1.focusMotor 0
    .ok { m1 with focusMotor := fm2,
                  focusMotorLastRunTime := m1.s.timerInterval / 10 }
  else do
    let (fm2, _) ← hxMotorMode m1.focusMotor 0
    .ok { m1 with focusMotor := fm2, focusMotorLastRunTime := stepsTime }

/-- The temperature/voltage refresh and position update of
`MCTRL.timer_tick()` (`mctrl.py` lines 295–300), run when the focus
state machine is not UNINITIALIZED. -/
def timerTickFocusUpdate (m2 : MCtrl) (now timePassed : ℚ) (env : FocusEnv) :
    MCtrl :=
  if m2.focusMotorState ≠ .uninitialized then
    let m2a :=
      if m2.focusTempVoltNextCheck < now then
        { m2 with focusTemp := env.temp, focusVolt := env.volt,
                  focusTempVoltNextCheck := now + 3 }
      else m2
    updateFocusPosition m2a timePassed env
  else m2

/-- The focus half of `MCTRL.timer_tick()` (`mctrl.py` lines 295–313):
the temperature/voltage refresh and position update, then the
focus-busy block, appending its event (if any) to the zoom half's
`ret1`. -/
def timerTickFocus (m2 : MCtrl) (now timePassed : ℚ) (env : FocusEnv)
    (ret1 : List String) : Except ServoError (MCtrl × List String) :=
  let m3 := timerTickFocusUpdate m2 now timePassed env
  if m3.focusMotorState = .busy then
    let stepsToMake := m3.focusTargetPosition - m3.focusPosition
    if |stepsToMake| < m3.s.focusPosPrecision then do
      let (fm1, _) ← hxMotorMode m3.focusMotor 0
      let (fm2, _) := hxDisableTorque fm1
      .ok ({ m3 with focusMotor := fm2, focusMotorState := .ready },
           ret1 ++ ["FOCUS_DONE"])
    else do
      let m4 ← focusDoSteps m3 stepsToMake
      .ok (m4, ret1 ++ ["FOCUS_MOVING"])
  else .ok (m3, ret1)

/-- `MCTRL.timer_tick()`: zero-elapsed-time early return, then the zoom
block, then the focus half (`timerTickFocus`).  `now` is
`time.monotonic()`; the returned list is `ret`. -/
def timerTick (m : MCtrl) (now : ℚ) (env : FocusEnv) :
    Except ServoError (MCtrl × List String) :=
  let timePassed := now - m.lastKnownTime
  let m1 := { m with lastKnownTime := now }
  if timePassed = 0 then .ok (m1, [])
  else if m1.zoomMotorState = .busy then
    if m1.zoomMotorBusyUntilTime < now then
      timerTickFocus
        { m1 with zoomMotor := (hxDisableTorque m1.zoomMotor).1,
                  zoomMotorState := .ready } now timePassed env ["ZOOM_DONE"]
    else timerTickFocus m1 now timePassed env ["ZOOM_MOVING"]
  else timerTickFocus m1 now timePassed env []

/-- `MCTRL.move_focus(value)`. -/
def moveFocus (m : MCtrl) (value : ℚ) :
    Except ServoError (MCtrl × List (List ℤ)) :=
  match m.focusMotorState with
  | .uninitialized => .error .logicalError
  | .ready =>
    let (fm, p) := hxEnableTorque m.focusMotor
    .ok ({ m with focusMotor := fm,
                  focusTargetPosition := m.focusPosition + value,
                  focusMotorState := .busy }, [p])
  | .busy =>
    .ok ({ m with focusTargetPosition := m.focusPosition + value }, [])

/-- The normalization/clamping in `MCTRL.get_zoom_current_level`
(`angle` is the hardware `get_physical_angle()` result). -/
def getZoomCurrentLevelVal (s : MCTRLSettings) (angle : ℚ) : ℚ :=
  let val := (angle - s.zoomMinAngle) / (s.zoomMaxAngle - s.zoomMinAngle)
  if val < 0 then 0 else if val > 1 then 1 else val

/-- `MCTRL.set_zoom_current_level(val)`: range check, state dispatch
(BUSY aborts the in-flight move by disabling torque), normalized-level
read, linear angle mapping, duration computation with the 30000 ms cap
on the move-command time, torque enable, the timed move, the busy-until
deadline, and the BUSY transition.  `hwAngle` is the hardware angle the
`get_zoom_current_level()` call reads; `now` is `time.monotonic()`.
Returns the new state and the packets written. -/
def setZoomCurrentLevel (m : MCtrl) (val : ℚ) (hwAngle : ℚ) (now : ℚ) :
    Except ServoError (MCtrl × List (List ℤ)) :=
  if val < 0 ∨ val > 1 then .error .argumentError
  else do
    let (m1, pkts1) ←
      match m.zoomMotorState with
      | .uninitialized => Except.error ServoError.logicalError
      | .busy =>
        let (zm, p) := hxDisableTorque m.zoomMotor
        Except.ok ({ m with zoomMotor := zm, zoomMotorState := .ready },
                   ([p] : List (List ℤ)))
      | .ready => Except.ok (m, ([] : List (List ℤ)))
    let oldAngleNorm := getZoomCurrentLevelVal m1.s hwAngle
    let newAngleReal := m1.s.zoomMinAngle +
      val * (m1.s.zoomMaxAngle - m1.s.zoomMinAngle)
    let waitTime := m1.s.zoomInToMaxTime * |val - oldAngleNorm|
    let timeMs0 := pyRound (waitTime * 1000)
    let timeMs := if timeMs0 > 30000 then 30000 else timeMs0
    -- here `zoom_motor_state == "READY"` always holds (the BUSY branch
    -- just set it), so the final guarded block runs unconditionally
    let (zm1, p1) := hxEnableTorque m1.zoomMotor
    let (zm2, p2) ← hxMove zm1 newAngleReal timeMs
    .ok ({ m1 with zoomMotor := zm2,
                   zoomMotorBusyUntilTime := now + waitTime * 1.1 + 0.1,
                   zoomMotorState := .busy }, pkts1 ++ [p1, p2])

/-- Python-level failures of `MCTRL.shutdown`: a `ServoError` raised by
a device call, or the `AttributeError` a `del` statement raises when
the attribute does not exist. -/
inductive PyError where
  | servo (e : ServoError)
  | attributeError (attr : String)
deriving DecidableEq, Repr

/-- `MCTRL.shutdown()`: the two state-guarded torque-disable blocks,
then the two unconditional `del` statements (which raise
`AttributeError` when the attribute was never created or was already
deleted), then `HX35.close()` (serial-port teardown, no controller
state). -/
def shutdown (m : MCtrl) : Except PyError MCtrl := do
  let m1 ←
    if m.zoomMotorState ≠ .uninitialized then
      if m.zoomMotorBound then
        Except.ok { m with zoomMotor := (hxDisableTorque m.zoomMotor).1,
                           zoomMotorState := .uninitialized }
      else Except.error (PyError.attributeError "zoom_motor")
    else Except.ok m
  let m2 ←
    if m1.focusMotorState ≠ .uninitialized then
      if m1.focusMotorBound then
        Except.ok { m1 with focusMotor := (hxDisableTorque m1.focusMotor).1,
                            focusMotorState := .uninitialized }
      else Except.error (PyError.attributeError "focus_motor")
    else Except.ok m1
  let m3 ←
    if m2.zoomMotorBound then Except.ok { m2 with zoomMotorBound := false }
    else Except.error (PyError.attributeError "zoom_motor")
  let m4 ←
    if m3.focusMotorBound then Except.ok { m3 with focusMotorBound := false }
    else Except.error (PyError.attributeError "focus_motor")
  .ok m4

/-- A concrete controller state (zoom READY, all other fields at their
class defaults) used to instantiate the zoom-level theorems. -/
def zoomReadyState : MCtrl := { zoomMotorState := .ready }

/-- Observation helper: the zoom event tags a tick may emit. -/
def isZoomTag (s : String) : Bool :=
  s == "ZOOM_MOVING" || s == "ZOOM_DONE"

/-- Observation helper: the focus event tags a tick may emit. -/
def isFocusTag (s : String) : Bool :=
  s == "FOCUS_MOVING" || s == "FOCUS_DONE"

/-! ## Helper lemmas -/

lemma getD_replicate_zero (k i : ℕ) : (List.replicate k (0:ℤ)).getD i 0 = 0 := by
  induction k generalizing i with
  | zero => simp [List.getD]
  | succ k ih =>
    cases i with
    | zero => simp [List.replicate_succ]
    | succ i => simp [List.replicate_succ, ih i]

lemma pyRound_eval_lt (q : ℚ) (z : ℤ) (h1 : (z : ℚ) ≤ q) (h2 : q - z < 1/2) :
    pyRound q = z := by
  have hf : ⌊q⌋ = z := Int.floor_eq_iff.mpr ⟨h1, by linarith⟩
  rw [pyRound]
  simp only [hf]
  rw [if_pos h2]

lemma pyRound_eval_gt (q : ℚ) (z : ℤ) (h1 : 1/2 < q - z) (h2 : q - z < 1) :
    pyRound q = z + 1 := by
  have hf : ⌊q⌋ = z := Int.floor_eq_iff.mpr ⟨by linarith, by linarith⟩
  rw [pyRound]
  simp only [hf]
  rw [if_neg (by linarith), if_pos h1]

lemma pyRound_eval_half_even (q : ℚ) (z : ℤ) (hz : q - z = 1/2)
    (he : z % 2 = 0) : pyRound q = z := by
  have hf : ⌊q⌋ = z := Int.floor_eq_iff.mpr ⟨by linarith, by linarith⟩
  rw [pyRound]
  simp only [hf]
  rw [if_neg (by linarith), if_neg (by linarith), if_pos he]

lemma exceptBind_error {ε α β : Type} (e : ε) (f : α → Except ε β) :
    (Except.error e >>= f) = (Except.error e : Except ε β) := rfl

lemma exceptBind_ok {ε α β : Type} (a : α) (f : α → Except ε β) :
    (Except.ok a >>= f) = f a := rfl

lemma updateFocusPosition_zoom (m : MCtrl) (tp : ℚ) (env : FocusEnv) :
    (updateFocusPosition m tp env).zoomMotorState = m.zoomMotorState ∧
    (updateFocusPosition m tp env).zoomMotor = m.zoomMotor := by
  simp only [updateFocusPosition, trainAddRow]
  split_ifs <;> exact ⟨rfl, rfl⟩

lemma timerTickFocusUpdate_zoom (m2 : MCtrl) (now tp : ℚ) (env : FocusEnv) :
    (timerTickFocusUpdate m2 now tp env).zoomMotorState = m2.zoomMotorState ∧
    (timerTickFocusUpdate m2 now tp env).zoomMotor = m2.zoomMotor := by
  simp only [timerTickFocusUpdate]
  split_ifs with h1 h2
  · exact updateFocusPosition_zoom _ _ _
  · exact updateFocusPosition_zoom _ _ _
  · exact ⟨rfl, rfl⟩

lemma focusDoSteps_zoom (m : MCtrl) (st : ℚ) (m4 : MCtrl)
    (h : focusDoSteps m st = .ok m4) :
    m4.zoomMotorState = m.zoomMotorState ∧ m4.zoomMotor = m.zoomMotor := by
  simp only [focusDoSteps] at h
  cases h1 : hxMotorMode m.focusMotor
      (if st < 0 then -m.s.focusStepSpeed else m.s.focusStepSpeed) with
  | error e => rw [h1, exceptBind_error] at h; cases h
  | ok r =>
    rw [h1, exceptBind_ok] at h
    obtain ⟨fm1, pk⟩ := r
    generalize (if st < 0 then (-1 : ℚ) else 1) = dir at h
    split_ifs at h with h2 h3
    · obtain rfl : _ = m4 := by injection h
      exact ⟨rfl, rfl⟩
    · cases h4 : hxMotorMode fm1 0 with
      | error e => rw [h4, exceptBind_error] at h; cases h
      | ok r2 =>
        rw [h4, exceptBind_ok] at h
        obtain rfl : _ = m4 := by injection h
        exact ⟨rfl, rfl⟩
    · cases h4 : hxMotorMode fm1 0 with
      | error e => rw [h4, exceptBind_error] at h; cases h
      | ok r2 =>
        rw [h4, exceptBind_ok] at h
        obtain rfl : _ = m4 := by injection h
        exact ⟨rfl, rfl⟩

lemma timerTickFocus_spec (m2 : MCtrl) (now tp : ℚ) (env : FocusEnv)
    (ret1 : List String) (mr : MCtrl) (evs : List String)
    (h : timerTickFocus m2 now tp env ret1 = .ok (mr, evs)) :
    mr.zoomMotorState = m2.zoomMotorState ∧
    mr.zoomMotor = m2.zoomMotor ∧
    (evs = ret1 ∨ evs = ret1 ++ ["FOCUS_DONE"] ∨
      evs = ret1 ++ ["FOCUS_MOVING"]) := by
  obtain ⟨hu1, hu2⟩ := timerTickFocusUpdate_zoom m2 now tp env
  simp only [timerTickFocus] at h
  split_ifs at h with h1 h2
  · cases h3 : hxMotorMode (timerTickFocusUpdate m2 now tp env).focusMotor 0 with
    | error e => rw [h3, exceptBind_error] at h; cases h
    | ok r =>
      rw [h3, exceptBind_ok] at h
      obtain ⟨fm1, pk⟩ := r
      injection h with h4
      injection h4 with h5 h6
      subst h6
      rw [show mr = _ from h5.symm]
      exact ⟨hu1, hu2, Or.inr (Or.inl rfl)⟩
  · cases h3 : focusDoSteps (timerTickFocusUpdate m2 now tp env)
        ((timerTickFocusUpdate m2 now tp env).focusTargetPosition -
          (timerTickFocusUpdate m2 now tp env).focusPosition) with
    | error e => rw [h3, exceptBind_error] at h; cases h
    | ok m4 =>
      rw [h3, exceptBind_ok] at h
      injection h with h4
      injection h4 with h5 h6
      subst h6
      obtain ⟨hd1, hd2⟩ := focusDoSteps_zoom _ _ _ h3
      rw [show mr = _ from h5.symm]
      exact ⟨hd1.trans hu1, hd2.trans hu2, Or.inr (Or.inr rfl)⟩
  · injection h with h4
    injection h4 with h5 h6
    subst h6
    rw [show mr = _ from h5.symm]
    exact ⟨hu1, hu2, Or.inl rfl⟩

/-! ## Claims -/

/-- C3: for previous and new angles in `[0, 360)`, the per-tick angular
delta is the signed shortest circular path: the raw difference, with
360° subtracted (new > previous) or added (new < previous) when its
magnitude exceeds 180°; `350° → 5°` gives +15, `5° → 350°` gives −15,
and the magnitude never exceeds 180°. -/
theorem claim_C3 (p n : ℚ) (hp0 : 0 ≤ p) (hp1 : p < 360)
    (hn0 : 0 ≤ n) (hn1 : n < 360) :
    (n > p →
      (n - p ≤ 180 → circularDelta p n = n - p) ∧
      (180 < n - p → circularDelta p n = n - p - 360)) ∧
    (n ≤ p →
      (p - n ≤ 180 → circularDelta p n = n - p) ∧
      (180 < p - n → circularDelta p n = n - p + 360)) ∧
    |circularDelta p n| ≤ 180 ∧
    circularDelta 350 5 = 15 ∧ circularDelta 5 350 = -15 := by
  refine ⟨?_, ?_, ?_, by norm_num [circularDelta], by norm_num [circularDelta]⟩
  · intro hgt
    refine ⟨fun hle => ?_, fun hlt => ?_⟩
    · rw [circularDelta, if_pos hgt, if_pos hle]
    · rw [circularDelta, if_pos hgt, if_neg (by linarith)]
  · intro hle
    refine ⟨fun hle2 => ?_, fun hlt => ?_⟩
    · rw [circularDelta, if_neg (by linarith), if_pos hle2]
    · rw [circularDelta, if_neg (by linarith), if_neg (by linarith)]
      ring
  · rcases le_or_lt n p with hle | hgt
    · rcases le_or_lt (p - n) 180 with h2 | h2
      · rw [circularDelta, if_neg (by linarith), if_pos h2, abs_le]
        constructor <;> linarith
      · rw [circularDelta, if_neg (by linarith), if_neg (by linarith), abs_le]
        constructor <;> linarith
    · rcases le_or_lt (n - p) 180 with h2 | h2
      · rw [circularDelta, if_pos hgt, if_pos h2, abs_le]
        constructor <;> linarith
      · rw [circularDelta, if_pos hgt, if_neg (by linarith), abs_le]
        constructor <;> linarith

/-- C3 witness: the theorem applied at the 350° → 5° wraparound. -/
theorem claim_C3_witness :
    circularDelta 350 5 = 15 ∧ |circularDelta 350 5| ≤ 180 := by
  have h := claim_C3 350 5 (by norm_num) (by norm_num) (by norm_num) (by norm_num)
  exact ⟨h.2.2.2.1, h.2.2.1⟩

/-- C4 counterexample: an all-zero full-length buffer passes the header
test (`0 != 0` is false) and is rejected by the LENGTH test, raised as
`ServoLogicalError` — not as a TimeoutError of any classification. -/
theorem claim_C4_counterexample :
    readPacket 2 (List.replicate 8 0) = .error (.badLength 0 5) ∧
    (ServoError.badLength 0 5).pyClass = PyClass.logicalError ∧
    (ServoError.badLength 0 5).pyClass ≠ PyClass.timeoutError := by
  decide

/-- C4 amended: `_read_packet` (the decode path) raises the generic
short-read TimeoutError whenever fewer bytes than requested arrive,
regardless of their content; a full-length all-zero buffer is rejected
by the declared-length check with a LogicalError, not a TimeoutError;
the all-zero "not responding" TimeoutError classification is
implemented only in the `_check_packet` helper, which no caller in the
repository invokes. -/
theorem claim_C4 (n : ℕ) (received : List ℤ) :
    (received.length < n + 6 →
      readPacket n received = .error (.timeoutShortRead received.length)) ∧
    readPacket n (List.replicate (n + 6) 0) =
      .error (.badLength 0 ((n : ℤ) + 3)) ∧
    (∀ (packet : List ℤ) (port : SerialPort), packet.sum = 0 →
      checkPacket packet port = (some .timeoutNotResponding, port)) := by
  refine ⟨fun h => ?_, ?_, fun packet port h => ?_⟩
  · rw [readPacket, if_pos h]
  · rw [readPacket, if_neg (by simp), if_neg (by simp [getD_replicate_zero]),
      if_pos (by simp [getD_replicate_zero]; omega)]
    simp [getD_replicate_zero]
  · rw [checkPacket, if_pos h]

/-- C4 witness: the theorem applied at a concrete short read, a
concrete all-zero full-length buffer, and a concrete all-zero packet. -/
theorem claim_C4_witness :
    readPacket 2 [] = .error (.timeoutShortRead 0) ∧
    readPacket 2 (List.replicate (2 + 6) 0) =
      .error (.badLength 0 ((2 : ℤ) + 3)) ∧
    checkPacket [0, 0, 0, 0] ⟨[9]⟩ = (some .timeoutNotResponding, ⟨[9]⟩) := by
  have h := claim_C4 2 []
  exact ⟨h.1 (by decide), h.2.1, h.2.2 [0, 0, 0, 0] ⟨[9]⟩ (by decide)⟩

/-- C5 counterexample: decoding a packet whose trailing checksum byte
is flipped (175 instead of 174) raises ChecksumError but does NOT
flush the input buffer — the byte queued behind the packet is still
there afterwards. -/
theorem claim_C5_counterexample :
    readPacketPort 1 ⟨[0x55, 0x55, 1, 4, 26, 50, 175, 99]⟩ =
      (.error (.checksumBad 174 175), ⟨[99]⟩) ∧
    (⟨[99]⟩ : SerialPort) ≠ ⟨[]⟩ := by
  decide

/-- C5 amended: `_read_packet` (the decode path) never flushes the
input buffer — in every outcome, checksum failure included, the buffer
is exactly the unread remainder; the flush-on-checksum-failure
behaviour is implemented only in the `_check_packet` helper, which no
caller in the repository invokes. -/
theorem claim_C5 (n : ℕ) (port : SerialPort) :
    (readPacketPort n port).2 = ⟨port.buf.drop (n + 6)⟩ ∧
    (∀ (packet : List ℤ) (q : SerialPort), packet.sum ≠ 0 →
      checksum packet.dropLast ≠ (packet.getLast?).getD 0 →
      checkPacket packet q =
        (some (.checksumBad (checksum packet.dropLast)
          ((packet.getLast?).getD 0)), ⟨[]⟩)) := by
  refine ⟨rfl, fun packet q h1 h2 => ?_⟩
  rw [checkPacket, if_neg h1, if_pos h2]

/-- C5 witness: the theorem applied at the flipped-checksum packet. -/
theorem claim_C5_witness :
    (readPacketPort 1 ⟨[0x55, 0x55, 1, 4, 26, 50, 175, 99]⟩).2 =
      ⟨([0x55, 0x55, 1, 4, 26, 50, 175, 99] : List ℤ).drop (1 + 6)⟩ ∧
    checkPacket [0x55, 0x55, 1, 4, 26, 50, 175] ⟨[7]⟩ =
      (some (.checksumBad
        (checksum ([0x55, 0x55, 1, 4, 26, 50, 175] : List ℤ).dropLast)
        ((([0x55, 0x55, 1, 4, 26, 50, 175] : List ℤ).getLast?).getD 0)), ⟨[]⟩) := by
  have h := claim_C5 1 ⟨[0x55, 0x55, 1, 4, 26, 50, 175, 99]⟩
  exact ⟨h.1, h.2 [0x55, 0x55, 1, 4, 26, 50, 175] ⟨[7]⟩ (by decide) (by decide)⟩

/-- C6: the header test `received[0] != received[1] != 0x55` is a
Python chained comparison (`received[0] != received[1] and
received[1] != 0x55`), so a packet whose first header byte is wrong but
whose second is 0x55 is ACCEPTED, as is one whose two header bytes are
equal but not 0x55; only a packet whose second byte differs from both
is rejected.  Evaluated at the failing inputs. -/
theorem claim_C6_theorem :
    readPacket 1 [170, 85, 1, 4, 26, 50, 174] = .ok [50] ∧
    readPacket 1 [7, 7, 1, 4, 26, 50, 174] = .ok [50] ∧
    readPacket 1 [85, 170, 1, 4, 26, 50, 174] = .error (.badHeader 85 170) := by
  decide

/-- C7 counterexample: a relative move from a commanded angle of 300°
(1250 units) by a further 300° passes both range validations (they
see only the 300° argument), and the packet IS transmitted although
the resolved target, 2500 units = 600°, lies outside the 0–360°
envelope and the device limits. -/
theorem claim_C7_counterexample :
    hxMove { torqueEnabled := true, commandedAngle := 1250 } 300 0 true false =
      .ok ({ torqueEnabled := true, commandedAngle := 2500 },
           [85, 85, 1, 7, 1, 196, 9, 0, 0, 41]) ∧
    fromServoRange 2500 = 600 ∧ ((600 : ℚ) > 360) := by
  have ht : toServoRange (300 : ℚ) = 1250 := by
    rw [toServoRange]
    have : (300 * 1500 / 360 : ℚ) = ((1250 : ℤ) : ℚ) := by norm_num
    rw [this]
    exact pyRound_eval_lt _ _ (le_refl _) (by norm_num)
  refine ⟨?_, by norm_num [fromServoRange], by norm_num⟩
  rw [hxMove]
  rw [if_neg (by simp), if_neg (by simp), if_neg (by norm_num),
    if_neg (by norm_num [fromServoRange])]
  simp only [ht]
  decide

/-- C7 amended: in `move(angle, time, relative=True)` the two range
validations (0–360° envelope and configured limits) are applied to the
relative `angle` ARGUMENT, before the offset is resolved against the
last commanded angle; a violating argument raises ArgumentError and
nothing is transmitted, but the resolved target
(argument + last commanded angle) is recorded and transmitted without
re-validation. -/
theorem claim_C7 (h : HXState) (angle : ℚ) (t : ℤ) (rel : Bool)
    (htq : h.torqueEnabled = true) (hmm : h.motorMode = false) :
    ((angle < 0 ∨ angle > 360 ∨ angle < fromServoRange h.angleLimits.1 ∨
        angle > fromServoRange h.angleLimits.2) →
      hxMove h angle t rel false = .error .argumentError) ∧
    (0 ≤ angle → angle ≤ 360 → fromServoRange h.angleLimits.1 ≤ angle →
      angle ≤ fromServoRange h.angleLimits.2 →
      (hxMove h angle t rel false).toOption.map
          (fun r => r.1.commandedAngle) =
        some (let a1 := if rel then toServoRange angle + h.commandedAngle
                        else toServoRange angle
              if a1 = 0 then 2 else a1)) := by
  constructor
  · intro hbad
    rw [hxMove, if_neg (by simp [htq]), if_neg (by simp [hmm])]
    rcases hbad with h1 | h1 | h1 | h1
    · rw [if_pos (Or.inl h1)]
    · rw [if_pos (Or.inr h1)]
    · by_cases henv : angle < 0 ∨ angle > 360
      · rw [if_pos henv]
      · rw [if_neg henv, if_pos (Or.inl h1)]
    · by_cases henv : angle < 0 ∨ angle > 360
      · rw [if_pos henv]
      · rw [if_neg henv, if_pos (Or.inr h1)]
  · intro h0 h1 h2 h3
    rw [hxMove, if_neg (by simp [htq]), if_neg (by simp [hmm]),
      if_neg (by simp only [not_or, not_lt]; exact ⟨h0, h1⟩),
      if_neg (by simp only [not_or, not_lt]; exact ⟨h2, h3⟩)]
    rfl

/-- C7 witness: the theorem applied at an argument outside the
envelope (400°), which is rejected before transmission. -/
theorem claim_C7_witness :
    hxMove { torqueEnabled := true } 400 0 false false =
      .error .argumentError :=
  (claim_C7 { torqueEnabled := true } 400 0 false rfl rfl).1
    (Or.inr (Or.inl (by norm_num)))

/-- C8: `shutdown()` on a controller that was never initialized runs
`del MCTRL.zoom_motor` on an attribute that does not exist and raises
AttributeError (both state machines are indeed UNINITIALIZED at that
point, but the call does not complete without raising; a second
shutdown after a successful one fails the same way since the
attributes were deleted). -/
theorem claim_C8_theorem :
    shutdown {} = .error (.attributeError "zoom_motor") ∧
    ({} : MCtrl).zoomMotorState = .uninitialized ∧
    ({} : MCtrl).focusMotorState = .uninitialized := by
  decide

/-- C9: after `set_angle_offset(-10)` the shadow holds the re-encoded
unsigned wire byte `256 + round(-10·1500/360) = 214`, so the cached
`get_angle_offset(poll_hardware=False)` returns
`214·360/1500 = 51.36°` — off from −10° by far more than one device
unit (0.24°).  For a positive offset the claim's round trip does hold
(+10° reads back as 10.08°). -/
theorem claim_C9_theorem :
    hxSetAngleOffset {} (-10) false =
      .ok ({ angleOffset := 214 }, [[85, 85, 1, 4, 17, 214, 19]]) ∧
    hxGetAngleOffsetCached { angleOffset := 214 } = 1284/25 ∧
    ¬ |(1284/25 : ℚ) - (-10)| ≤ 0.24 ∧
    hxSetAngleOffset {} 10 false =
      .ok ({ angleOffset := 42 }, [[85, 85, 1, 4, 17, 42, 191]]) ∧
    |hxGetAngleOffsetCached { angleOffset := 42 } - 10| ≤ 0.24 := by
  have hneg : toServoRange (-10 : ℚ) = -42 := by
    rw [toServoRange]
    have : (-10 * 1500 / 360 : ℚ) = -125/3 := by norm_num
    rw [this]
    exact pyRound_eval_lt _ (-42) (by norm_num) (by norm_num)
  have hpos : toServoRange (10 : ℚ) = 42 := by
    rw [toServoRange]
    have : (10 * 1500 / 360 : ℚ) = 125/3 := by norm_num
    rw [this]
    exact pyRound_eval_gt _ 41 (by norm_num) (by norm_num)
  refine ⟨?_, by norm_num [hxGetAngleOffsetCached, fromServoRange],
    by rw [abs_of_nonneg (by norm_num)]; norm_num, ?_,
    by rw [hxGetAngleOffsetCached, fromServoRange,
      abs_of_nonneg (by norm_num)]; norm_num⟩
  · rw [hxSetAngleOffset, if_neg (by norm_num)]
    simp only [hneg]
    decide
  · rw [hxSetAngleOffset, if_neg (by norm_num)]
    simp only [hpos]
    decide

/-- C1 counterexample: `move_focus(5)` while BUSY with position 0 and
an in-flight target of 10 sets the target to position + 5 = 5, not to
the accumulated 10 + 5 = 15. -/
theorem claim_C1_counterexample :
    (moveFocus { focusMotorState := .busy, focusPosition := 0,
                 focusTargetPosition := 10 } 5).toOption.map
        (fun r => (r.1.focusTargetPosition, r.1.focusMotorState, r.2)) =
      some (5, .busy, []) ∧
    (5 : ℚ) ≠ 10 + 5 := by
  refine ⟨?_, by norm_num⟩
  simp only [moveFocus, Except.toOption, Option.map]
  norm_num

/-- C1 amended: `move_focus(delta)` raises LogicalError when
UNINITIALIZED; when READY it enables torque, sets
target = position + delta and transitions to BUSY; when called again
while BUSY it again sets target = CURRENT POSITION + delta — a new
request re-bases on the current position, replacing the outstanding
target rather than accumulating onto it. -/
theorem claim_C1 (m : MCtrl) (v : ℚ) :
    (m.focusMotorState = .uninitialized →
      moveFocus m v = .error .logicalError) ∧
    (m.focusMotorState = .ready →
      moveFocus m v =
        .ok ({ m with focusMotor := (hxEnableTorque m.focusMotor).1,
                      focusTargetPosition := m.focusPosition + v,
                      focusMotorState := .busy },
             [(hxEnableTorque m.focusMotor).2]) ∧
      (hxEnableTorque m.focusMotor).1.torqueEnabled = true) ∧
    (m.focusMotorState = .busy →
      moveFocus m v =
        .ok ({ m with focusTargetPosition := m.focusPosition + v }, [])) := by
  refine ⟨fun h => ?_, fun h => ⟨?_, rfl⟩, fun h => ?_⟩ <;>
    simp [moveFocus, h]

/-- C1 witness: the theorem applied at the BUSY state with position 0,
outstanding target 10 and delta 5. -/
theorem claim_C1_witness :
    moveFocus { focusMotorState := .busy, focusPosition := 0,
                focusTargetPosition := 10 } 5 =
      .ok ({ focusMotorState := .busy, focusPosition := 0,
             focusTargetPosition := (0 : ℚ) + 5 }, []) :=
  (claim_C1 { focusMotorState := .busy, focusPosition := 0,
              focusTargetPosition := 10 } 5).2.2 rfl

/-- C2 counterexample: with a configured full-sweep time of 40 s, a
full-range zoom request computes an (uncapped) wait time of 40 s; the
30000 ms cap applies only to the move-command time parameter, while the
busy-until deadline is `now + 40·1.1 + 0.1 = 44.1 s` — not the
`now + 30·1.1 + 0.1 = 33.1 s` the claim's capped duration implies. -/
theorem claim_C2_counterexample :
    (setZoomCurrentLevel
        { zoomMotorState := .ready, s := { zoomInToMaxTime := 40 } }
        1 0 0).toOption.map
      (fun r => r.1.zoomMotorBusyUntilTime) = some 44.1 ∧
    (44.1 : ℚ) ≠ 30 * 1.1 + 0.1 := by
  constructor
  · rw [setZoomCurrentLevel, if_neg (by norm_num)]
    simp only [exceptBind_ok, hxEnableTorque, getZoomCurrentLevelVal]
    rw [hxMove]
    rw [if_neg (by simp), if_neg (by simp), if_neg (by norm_num),
      if_neg (by norm_num [fromServoRange])]
    simp [Except.toOption, Option.map, exceptBind_ok]
    norm_num
  · norm_num

/-- C2 amended: `set_zoom_level(v)` raises ArgumentError outside [0,1]
and LogicalError when UNINITIALIZED; otherwise (READY, or BUSY — which
first aborts the in-flight move) it maps `v` linearly onto the
configured min/max angle, enables torque, issues a timed move whose
time parameter is `round(duration·1000)` ms capped at 30000, leaves
the state BUSY, and records a busy-until deadline of
now + UNCAPPED duration × 1.1 + 100 ms (the 30000 ms cap applies only
to the move command's time parameter).  A later tick strictly after
the deadline disables torque, emits "ZOOM_DONE" first and returns to
READY; a tick at or before the deadline emits "ZOOM_MOVING" first and
stays BUSY. -/
theorem claim_C2 (m : MCtrl) (val hwAngle now : ℚ) :
    ((val < 0 ∨ val > 1) →
      setZoomCurrentLevel m val hwAngle now = .error .argumentError) ∧
    (0 ≤ val → val ≤ 1 → m.zoomMotorState = .uninitialized →
      setZoomCurrentLevel m val hwAngle now = .error .logicalError) ∧
    (0 ≤ val → val ≤ 1 → m.zoomMotorState ≠ .uninitialized →
      m.zoomMotor.motorMode = false →
      0 ≤ m.s.zoomMinAngle + val * (m.s.zoomMaxAngle - m.s.zoomMinAngle) →
      m.s.zoomMinAngle + val * (m.s.zoomMaxAngle - m.s.zoomMinAngle) ≤ 360 →
      fromServoRange m.zoomMotor.angleLimits.1 ≤
        m.s.zoomMinAngle + val * (m.s.zoomMaxAngle - m.s.zoomMinAngle) →
      m.s.zoomMinAngle + val * (m.s.zoomMaxAngle - m.s.zoomMinAngle) ≤
        fromServoRange m.zoomMotor.angleLimits.2 →
      (setZoomCurrentLevel m val hwAngle now).toOption.map
          (fun r => (r.1.zoomMotorState, r.1.zoomMotor.torqueEnabled,
            r.1.zoomMotorBusyUntilTime, r.2.getLast?)) =
        some (.busy, true,
          now + m.s.zoomInToMaxTime *
            |val - getZoomCurrentLevelVal m.s hwAngle| * 1.1 + 0.1,
          some (sendPacket ([m.zoomMotor.id, 7, 1] ++
            toBytes (if toServoRange (m.s.zoomMinAngle +
                val * (m.s.zoomMaxAngle - m.s.zoomMinAngle)) = 0 then 2
              else toServoRange (m.s.zoomMinAngle +
                val * (m.s.zoomMaxAngle - m.s.zoomMinAngle))) ++
            toBytes (if pyRound (m.s.zoomInToMaxTime *
                  |val - getZoomCurrentLevelVal m.s hwAngle| * 1000) > 30000
              then 30000
              else pyRound (m.s.zoomInToMaxTime *
                |val - getZoomCurrentLevelVal m.s hwAngle| * 1000)))))) ∧
    (∀ (mb : MCtrl) (now2 : ℚ) (env : FocusEnv) (mr : MCtrl)
        (evs : List String),
      mb.zoomMotorState = .busy → now2 ≠ mb.lastKnownTime →
      timerTick mb now2 env = .ok (mr, evs) →
      ((mb.zoomMotorBusyUntilTime < now2 →
        evs.head? = some "ZOOM_DONE" ∧ mr.zoomMotorState = .ready ∧
        mr.zoomMotor.torqueEnabled = false) ∧
      (¬ mb.zoomMotorBusyUntilTime < now2 →
        evs.head? = some "ZOOM_MOVING" ∧ mr.zoomMotorState = .busy))) := by
  refine ⟨fun hbad => ?_, fun hv0 hv1 hs => ?_, fun hv0 hv1 hneq hmode hb1 hb2 hb3 hb4 => ?_, ?_⟩
  · rw [setZoomCurrentLevel, if_pos hbad]
  · rw [setZoomCurrentLevel,
      if_neg (by simp only [not_or, not_lt]; exact ⟨hv0, hv1⟩)]
    simp only [hs, exceptBind_error]
  · have hvc : ¬ (val < 0 ∨ val > 1) := by
      simp only [not_or, not_lt]; exact ⟨hv0, hv1⟩
    rcases hstate : m.zoomMotorState with _ | _ | _
    · exact absurd hstate hneq
    · rw [setZoomCurrentLevel, if_neg hvc]
      simp only [hstate, exceptBind_ok, hxEnableTorque]
      rw [hxMove]
      rw [if_neg (by simp), if_neg (by simp [hmode]),
        if_neg (by simp only [not_or, not_lt]; exact ⟨hb1, hb2⟩),
        if_neg (by simp only [not_or, not_lt]; exact ⟨hb3, hb4⟩)]
      rfl
    · rw [setZoomCurrentLevel, if_neg hvc]
      simp only [hstate, exceptBind_ok, hxEnableTorque, hxDisableTorque]
      rw [hxMove]
      rw [if_neg (by simp), if_neg (by simp [hmode]),
        if_neg (by simp only [not_or, not_lt]; exact ⟨hb1, hb2⟩),
        if_neg (by simp only [not_or, not_lt]; exact ⟨hb3, hb4⟩)]
      rfl
  · intro mb now2 env mr evs hb hne htick
    simp only [timerTick] at htick
    rw [if_neg (sub_ne_zero.mpr hne), if_pos hb] at htick
    constructor
    · intro hd
      rw [if_pos hd] at htick
      obtain ⟨hz1, hz2, hevs⟩ := timerTickFocus_spec _ _ _ _ _ _ _ htick
      refine ⟨?_, hz1, ?_⟩
      · rcases hevs with rfl | rfl | rfl <;> rfl
      · rw [hz2]; rfl
    · intro hd
      rw [if_neg hd] at htick
      obtain ⟨hz1, hz2, hevs⟩ := timerTickFocus_spec _ _ _ _ _ _ _ htick
      refine ⟨?_, hz1.trans hb⟩
      rcases hevs with rfl | rfl | rfl <;> rfl

/-- C2 witness: the theorem applied at READY with `v = 1/2`,
hardware angle 0 and `now = 0`. -/
theorem claim_C2_witness :
    (setZoomCurrentLevel zoomReadyState (1/2) 0 0).toOption.map
        (fun r => (r.1.zoomMotorState, r.1.zoomMotor.torqueEnabled,
          r.1.zoomMotorBusyUntilTime, r.2.getLast?)) =
      some (.busy, true,
        0 + zoomReadyState.s.zoomInToMaxTime *
          |1/2 - getZoomCurrentLevelVal zoomReadyState.s 0| * 1.1 + 0.1,
        some (sendPacket ([zoomReadyState.zoomMotor.id, 7, 1] ++
          toBytes (if toServoRange (zoomReadyState.s.zoomMinAngle +
              1/2 * (zoomReadyState.s.zoomMaxAngle -
                zoomReadyState.s.zoomMinAngle)) = 0 then 2
            else toServoRange (zoomReadyState.s.zoomMinAngle +
              1/2 * (zoomReadyState.s.zoomMaxAngle -
                zoomReadyState.s.zoomMinAngle))) ++
          toBytes (if pyRound (zoomReadyState.s.zoomInToMaxTime *
                |1/2 - getZoomCurrentLevelVal zoomReadyState.s 0| * 1000) > 30000
            then 30000
            else pyRound (zoomReadyState.s.zoomInToMaxTime *
              |1/2 - getZoomCurrentLevelVal zoomReadyState.s 0| * 1000))))) :=
  (claim_C2 zoomReadyState (1/2) 0 0).2.2.1
    (by norm_num) (by norm_num) (by decide) rfl
    (by norm_num [zoomReadyState]) (by norm_num [zoomReadyState])
    (by norm_num [zoomReadyState, fromServoRange])
    (by norm_num [zoomReadyState, fromServoRange])

/-- C10: whenever `timer_tick()` returns (does not raise), the event
list consists of at most one zoom tag followed by at most one focus
tag (it equals its zoom-tag sublist followed by its focus-tag sublist,
each of length at most 1), and a tick with zero elapsed monotonic time
returns an empty list. -/
theorem claim_C10 (m : MCtrl) (now : ℚ) (env : FocusEnv)
    (m' : MCtrl) (evs : List String)
    (h : timerTick m now env = .ok (m', evs)) :
    evs = evs.filter isZoomTag ++ evs.filter isFocusTag ∧
    (evs.filter isZoomTag).length ≤ 1 ∧
    (evs.filter isFocusTag).length ≤ 1 ∧
    (now = m.lastKnownTime → evs = []) := by
  simp only [timerTick] at h
  by_cases h0 : now - m.lastKnownTime = 0
  · rw [if_pos h0] at h
    injection h with h1
    injection h1 with h2 h3
    subst h3
    exact ⟨by decide, by decide, by decide, fun _ => rfl⟩
  · rw [if_neg h0] at h
    have hne : now = m.lastKnownTime → evs = [] :=
      fun he => absurd (by rw [he, sub_self]) h0
    by_cases hb : m.zoomMotorState = MotorState.busy
    · rw [if_pos hb] at h
      by_cases hd : m.zoomMotorBusyUntilTime < now
      · rw [if_pos hd] at h
        obtain ⟨-, -, hevs⟩ := timerTickFocus_spec _ _ _ _ _ _ _ h
        rcases hevs with rfl | rfl | rfl <;>
          exact ⟨by decide, by decide, by decide, hne⟩
      · rw [if_neg hd] at h
        obtain ⟨-, -, hevs⟩ := timerTickFocus_spec _ _ _ _ _ _ _ h
        rcases hevs with rfl | rfl | rfl <;>
          exact ⟨by decide, by decide, by decide, hne⟩
    · rw [if_neg hb] at h
      obtain ⟨-, -, hevs⟩ := timerTickFocus_spec _ _ _ _ _ _ _ h
      rcases hevs with rfl | rfl | rfl <;>
        exact ⟨by decide, by decide, by decide, hne⟩

/-- C10 witness: the theorem applied at the default controller state
(both machines UNINITIALIZED) with one second elapsed: the tick
returns an empty event list. -/
theorem claim_C10_witness :
    ([] : List String) =
      ([] : List String).filter isZoomTag ++
        ([] : List String).filter isFocusTag ∧
    (([] : List String).filter isZoomTag).length ≤ 1 ∧
    (([] : List String).filter isFocusTag).length ≤ 1 ∧
    ((1 : ℚ) = ({} : MCtrl).lastKnownTime → ([] : List String) = []) :=
  claim_C10 {} 1 ⟨fun _ => 0, 0, 0⟩ { lastKnownTime := 1 } [] (by
    simp [timerTick, timerTickFocus, timerTickFocusUpdate])

end OrionRc
